import Mathlib

/-!
# Workflow task handler (`pkg/handlers/podshandler.go`)

A shallow embedding of `waitForStatusByInformer` and of the runner built by
`workflowHandler`, followed by the properties checked against it.

Conventions of the embedding:

* a Go `error` is `Option GoError` (`none` is `nil`);
* a Go panic is a value of `PanicValue`, carried by `Except`;
* library and out-of-file collaborators (`getField`, `jsonField`, `apply`,
  `delete`, the list-watch stream, `FromUnstructured`, `cmd.Start`,
  `cmd.Wait`) are fields of `Collab`, so every theorem holds for all of them;
* a watch stream is the sequence of notifications that the informer's
  listener hands to the registered handlers, in order, those still queued
  when the stop channel is closed included;
* the handler runs on the listener's goroutine: a panic raised there is out
  of reach of the deferred `recover` of `waitForStatusByInformer` and ends
  the process (`Outcome.crashed`).
-/

namespace PodsHandler

/-! ## Data model -/

/-- Go error values, identified by their message. -/
abbrev GoError := String

/-- Constant `PodFlowRoot`. -/
def PodFlowRoot : String := "workflow"

/-- Constant `v1.PodRunning` (the pod phase is a string type in Go). -/
def PodRunning : String := "Running"

/-- The part of `v1.Pod` the handler reads: name, namespace, `Status.Phase`. -/
structure Pod where
  name : String
  ns : String
  phase : String
  deriving DecidableEq, Repr

/-- The part of `resource.Info` the watcher reads. -/
structure Info where
  name : String
  ns : String
  resource : String
  deriving DecidableEq, Repr

/-- Dynamic value behind the empty-interface arguments of the update handler:
either an `*unstructured.Unstructured` with content `u`, or a value of another
dynamic type, on which the type assertion of line 71 panics. -/
inductive Obj (U : Type) where
  | unstructured (u : U)
  | other (typeName : String)
  deriving DecidableEq, Repr

/-- Events of a list-watch stream. -/
inductive WatchEvent (U : Type) where
  | add (obj : Obj U)
  | update (oldObj newObj : Obj U)
  | delete (obj : Obj U)
  deriving DecidableEq, Repr

/-- Run-time panics that the handler can raise. -/
inductive PanicValue where
  | typeAssertion
  | closeOfClosedChannel
  deriving DecidableEq, Repr

/-- Lines written through `klog` by the handler. -/
inductive LogLine where
  | informerError
  | success (name ns : String)
  deriving DecidableEq, Repr

/-- Variables captured by the `UpdateFunc` closure: the outer `err` of
`waitForStatusByInformer` and the stop channel `ch`, plus the log. -/
structure Session where
  err : Option GoError
  chClosed : Bool
  log : List LogLine
  deriving DecidableEq, Repr

/-- How a call ends: it returns an error value, it never returns, or the
process exits on a panic that no `recover` caught. -/
inductive Outcome where
  | returned (err : Option GoError)
  | blocked
  | crashed (p : PanicValue)
  deriving DecidableEq, Repr

/-! ## `waitForStatusByInformer` -/

/-- Go `close(ch)`: closing a closed channel panics. -/
def closeChan (s : Session) : Except PanicValue Session :=
  if s.chClosed then .error .closeOfClosedChannel
  else .ok { s with chClosed := true }

/-- The `UpdateFunc` closure of lines 69-84. `conv` is
`runtime.DefaultUnstructuredConverter.FromUnstructured`. The decode error is
bound with `err :=` inside the closure, a fresh variable: the captured outer
`err` (field `err` of the session) is never assigned. -/
def UpdateFunc {U : Type} (conv : U → Except GoError Pod) (s : Session)
    (_oldObj newObj : Obj U) : Except PanicValue Session :=
  match newObj with
  | .other _ => .error .typeAssertion
  | .unstructured u =>
    match conv u with
    | .error _ => closeChan { s with log := s.log ++ [LogLine.informerError] }
    | .ok pod =>
      if pod.phase = PodRunning then
        closeChan { s with log := s.log ++ [LogLine.success pod.name pod.ns] }
      else .ok s

/-- Result of `informer.Run(ch)`: it returns, the process exits on a panic
of the listener goroutine, or it waits forever. -/
inductive RunResult where
  | stopped (s : Session)
  | crashed (p : PanicValue)
  | blocked (s : Session)
  deriving DecidableEq, Repr

/-- Library call `informer.Run(ch)` with only `UpdateFunc` registered. The
list holds the notifications the listener hands over, in order; closing `ch`
asks the informer to stop but does not withdraw a notification that is
already queued, so every update of the list reaches the handler. Add and
delete notifications have no handler. The handler runs on the listener's
goroutine, where a panic is not recovered and ends the process. After the
last notification `Run` returns when `ch` is closed and waits forever when
it is still open. -/
def informerRun {U : Type} (conv : U → Except GoError Pod) :
    Session → List (WatchEvent U) → RunResult
  | s, [] => if s.chClosed then .stopped s else .blocked s
  | s, ev :: rest =>
    match ev with
    | .update o n =>
      match UpdateFunc conv s o n with
      | .error p => .crashed p
      | .ok s' => informerRun conv s' rest
    | .add _ => informerRun conv s rest
    | .delete _ => informerRun conv s rest

/-- Go `fmt.Errorf("%v", e)` on a recovered panic value. -/
def fmtErrorf : PanicValue → GoError
  | .typeAssertion => "interface conversion"
  | .closeOfClosedChannel => "close of closed channel"

/-- Activation record of `waitForStatusByInformer`: the local `err` and the
result slot. The result is unnamed, so only a `return` statement writes it. -/
structure Frame where
  err : Option GoError
  result : Option GoError
  deriving DecidableEq, Repr

/-- The deferred closure of lines 59-63, given what `recover()` yields on
the goroutine of `waitForStatusByInformer`: on a value it assigns the local
`err`; the result slot is not reachable from it. -/
def deferredRecover (fr : Frame) (e : Option PanicValue) : Frame :=
  match e with
  | some p => { fr with err := some (fmtErrorf p) }
  | none => fr

/-- Function `waitForStatusByInformer` (lines 57-89). `listWatch resource ns`
is the notification stream of the informer built on
`cache.NewListWatchFromClient` for that resource kind and namespace with
`fields.Everything()`. -/
def waitForStatusByInformer {U : Type} (conv : U → Except GoError Pod)
    (listWatch : String → String → List (WatchEvent U)) (obj : Info) : Outcome :=
  let s0 : Session := { err := none, chClosed := false, log := [] }
  match informerRun conv s0 (listWatch obj.resource obj.ns) with
  | .blocked _ => .blocked
  | .crashed p =>
    -- the panic is on the listener's goroutine: the deferred closure never sees it
    .crashed p
  | .stopped s =>
    -- `return err` copies the local into the result slot; nothing panicked on this
    -- goroutine, so `recover()` yields nil in the deferred closure
    .returned (deferredRecover { err := s.err, result := s.err } none).result

/-- Update events handed one after another to the same `UpdateFunc` closure. -/
def deliver {U : Type} (conv : U → Except GoError Pod) :
    Session → List (Obj U × Obj U) → Except PanicValue Session
  | s, [] => .ok s
  | s, (o, n) :: rest =>
    match UpdateFunc conv s o n with
    | .error p => .error p
    | .ok s' => deliver conv s' rest

/-! ## The runner built by `workflowHandler` -/

/-- The part of `flow.Task` the runner reads: `Index()` and `Value()`. -/
structure Task (V : Type) where
  index : Int
  value : V

/-- Collaborators of the runner that live outside this file: the field
readers `getField` and `jsonField`, the cluster operations `apply` and
`delete`, the list-watch stream and the unstructured converter used by the
watcher, and `Start`/`Wait` of the `bash -s` command whose standard input is
the given script. -/
structure Collab (V U : Type) where
  getField : V → String → String → String
  jsonField : V → String → Except GoError String
  apply : String → Except GoError (List Info)
  delete : String → Option GoError
  listWatch : String → String → List (WatchEvent U)
  FromUnstructured : U → Except GoError Pod
  cmdStart : String → Option GoError
  cmdWait : String → Option GoError

/-- Calls made by the runner, in program order. -/
inductive Call where
  | getField (key dflt : String)
  | jsonField (key : String)
  | apply (podJson : String)
  | delete (podJson : String)
  | waitForStatusByInformer (obj : Info)
  | cmdStart (script : String)
  | cmdWait (script : String)
  | println (msg : String) (err : GoError)
  deriving DecidableEq, Repr

/-- How a block of the runner ends: a `return` was executed, or control falls
through to the statement after the block. -/
inductive Step where
  | ret (o : Outcome)
  | next
  deriving DecidableEq, Repr

/-- Body of `if taskType == "k8s"` (lines 107-128). -/
def k8sBlock {V U : Type} (c : Collab V U) (v : V) (action : String) : List Call × Step :=
  match c.jsonField v "template" with
  | .error err => ([Call.jsonField "template"], .ret (.returned (some err)))
  | .ok podJson =>
    if action = "apply" then
      match c.apply podJson with
      | .error err =>
        ([Call.jsonField "template", Call.apply podJson], .ret (.returned (some err)))
      | .ok res =>
        match res with
        | r0 :: _ =>
          ([Call.jsonField "template", Call.apply podJson, Call.waitForStatusByInformer r0],
            .ret (waitForStatusByInformer c.FromUnstructured c.listWatch r0))
        | [] => ([Call.jsonField "template", Call.apply podJson], .next)
    else
      match c.delete podJson with
      | some err =>
        ([Call.jsonField "template", Call.delete podJson], .ret (.returned (some err)))
      | none => ([Call.jsonField "template", Call.delete podJson], .next)

/-- Body of `if taskType == "bash"` (lines 134-153). -/
def bashBlock {V U : Type} (c : Collab V U) (v : V) : List Call × Step :=
  let scriptToRun := c.getField v "script" ""
  match c.cmdStart scriptToRun with
  | some err =>
    ([Call.getField "script" "", Call.cmdStart scriptToRun,
        Call.println "启动脚本时出错:" err],
      .ret (.returned (some err)))
  | none =>
    match c.cmdWait scriptToRun with
    | some err =>
      ([Call.getField "script" "", Call.cmdStart scriptToRun, Call.cmdWait scriptToRun,
          Call.println "执行脚本时出错:" err],
        .ret (.returned (some err)))
    | none =>
      ([Call.getField "script" "", Call.cmdStart scriptToRun, Call.cmdWait scriptToRun], .next)

/-- The `flow.RunnerFunc` closure of lines 97-158: the calls it makes and how
it ends. -/
def runner {V U : Type} (c : Collab V U) (t : Task V) : List Call × Outcome :=
  if t.index ≠ 0 then
    let action := c.getField t.value "action" "apply"
    let taskType := c.getField t.value "type" "k8s"
    let reads := [Call.getField "action" "apply", Call.getField "type" "k8s"]
    let k8s := if taskType = "k8s" then k8sBlock c t.value action else ([], Step.next)
    match k8s.2 with
    | .ret o => (reads ++ k8s.1, o)
    | .next =>
      let bash := if taskType = "bash" then bashBlock c t.value else ([], Step.next)
      match bash.2 with
      | .ret o => (reads ++ k8s.1 ++ bash.1, o)
      | .next => (reads ++ k8s.1 ++ bash.1, .returned none)
  else ([], .returned none)

/-- Function `workflowHandler` (lines 91-159): no runner for an unlabelled
node or for the root label, the runner above otherwise. `label` and
`hasLabel` are the two results of `v.Label()`. -/
def workflowHandler {V U : Type} (c : Collab V U) (label : String) (hasLabel : Bool) :
    Option (Task V → List Call × Outcome) :=
  if !hasLabel || label == PodFlowRoot then none else some (runner c)

/-! ## Vocabulary of the statements -/

/-- The call is an apply operation. -/
def Call.isApply : Call → Bool
  | .apply _ => true
  | _ => false

/-- The call is a delete operation. -/
def Call.isDelete : Call → Bool
  | .delete _ => true
  | _ => false

/-- The call belongs to the k8s branch. -/
def Call.isK8s : Call → Bool
  | .jsonField _ => true
  | .apply _ => true
  | .delete _ => true
  | .waitForStatusByInformer _ => true
  | _ => false

/-- The call belongs to the bash branch. -/
def Call.isBash : Call → Bool
  | .getField key _ => key == "script"
  | .cmdStart _ => true
  | .cmdWait _ => true
  | .println _ _ => true
  | _ => false

/-- Handles on which the readiness watcher was invoked, in order. -/
def watched : List Call → List Info
  | [] => []
  | .waitForStatusByInformer h :: cs => h :: watched cs
  | _ :: cs => watched cs

/-- The new object of an update event decodes to a pod in phase `Running`. -/
def reportsRunning {U : Type} (conv : U → Except GoError Pod) : WatchEvent U → Bool
  | .update _ (.unstructured u) =>
    match conv u with
    | .ok pod => pod.phase == PodRunning
    | .error _ => false
  | _ => false

/-- The new object of an update event decodes to the pod named by the handle
(same name and namespace) in phase `Running`. -/
def reportsRunningFor {U : Type} (conv : U → Except GoError Pod) (h : Info) :
    WatchEvent U → Bool
  | .update _ (.unstructured u) =>
    match conv u with
    | .ok pod => pod.phase == PodRunning && pod.name == h.name && pod.ns == h.ns
    | .error _ => false
  | _ => false

/-- The new object of an update event is an unstructured object that fails to
decode. -/
def failsToDecode {U : Type} (conv : U → Except GoError Pod) : WatchEvent U → Bool
  | .update _ (.unstructured u) =>
    match conv u with
    | .ok _ => false
    | .error _ => true
  | _ => false

/-- Every update event carries an unstructured object that decodes. -/
def wellFormed {U : Type} (conv : U → Except GoError Pod) : WatchEvent U → Bool
  | .update _ (.unstructured u) =>
    match conv u with
    | .ok _ => true
    | .error _ => false
  | .update _ (.other _) => false
  | _ => true

/-! ## Concrete inputs -/

/-- Session at the start of a wait: `err` is nil and `ch` is open. -/
def Session.start : Session := { err := none, chClosed := false, log := [] }

/-- A converter on contents that either hold a pod or are malformed. -/
def convEx : Option Pod → Except GoError Pod
  | some p => .ok p
  | none => .error "unable to decode"

/-- Handle of pod `a` in namespace `default`. -/
def podA : Info := { name := "a", ns := "default", resource := "pods" }

/-- Update event whose new object is pod `name` of namespace `default` in the
given phase. -/
def updateOf (name phase : String) : WatchEvent (Option Pod) :=
  .update (.unstructured none)
    (.unstructured (some { name := name, ns := "default", phase := phase }))

/-- Update event whose new object does not decode. -/
def malformedUpdate : WatchEvent (Option Pod) :=
  .update (.unstructured none) (.unstructured none)

/-- An update pair whose new object is pod `a` in the given phase. -/
def pairOf (phase : String) : Obj (Option Pod) × Obj (Option Pod) :=
  (.unstructured none, .unstructured (some { name := "a", ns := "default", phase := phase }))

/-- Handle of pod `b` in namespace `default`. -/
def podB : Info := { name := "b", ns := "default", resource := "pods" }

/-- Collaborators over string-keyed configurations: fields are looked up in
an association list, the template is the `template` entry, apply returns the
given handles, delete and the script commands return the given errors, and
the watch stream is the given one. -/
def collabEx (handles : List Info) (stream : List (WatchEvent (Option Pod)))
    (deleteErr startErr waitErr : Option GoError) :
    Collab (List (String × String)) (Option Pod) where
  getField v key dflt := (v.lookup key).getD dflt
  jsonField v key :=
    match v.lookup key with
    | some j => .ok j
    | none => .error "field not found"
  apply _ := .ok handles
  delete _ := deleteErr
  listWatch _ _ := stream
  FromUnstructured := convEx
  cmdStart _ := startErr
  cmdWait _ := waitErr

/-- A k8s/apply task at index 1 with a template. -/
def applyTask : Task (List (String × String)) :=
  { index := 1, value := [("type", "k8s"), ("action", "apply"), ("template", "manifest")] }

/-- A k8s/delete task at index 2 with a template. -/
def deleteTask : Task (List (String × String)) :=
  { index := 2, value := [("type", "k8s"), ("action", "delete"), ("template", "manifest")] }

/-- A bash task at index 1 whose script exits with status 7. -/
def bashTask : Task (List (String × String)) :=
  { index := 1, value := [("type", "bash"), ("script", "exit 7")] }

/-- A k8s/apply task at index 0 with a template. -/
def rootTask : Task (List (String × String)) :=
  { index := 0, value := [("type", "k8s"), ("action", "apply"), ("template", "manifest")] }

/-! ## Lemmas on the watcher -/

theorem closeChan_err {s s' : Session} (h : closeChan s = .ok s') : s'.err = s.err := by
  unfold closeChan at h
  split at h
  · cases h
  · cases h; rfl

theorem UpdateFunc_err {U : Type} (conv : U → Except GoError Pod) {s s' : Session}
    {o n : Obj U} (h : UpdateFunc conv s o n = .ok s') : s'.err = s.err := by
  unfold UpdateFunc at h
  split at h
  · cases h
  · split at h
    · exact (closeChan_err h).trans rfl
    · split at h
      · exact (closeChan_err h).trans rfl
      · cases h; rfl

theorem informerRun_err {U : Type} (conv : U → Except GoError Pod) :
    ∀ (evs : List (WatchEvent U)) (s s' : Session),
      informerRun conv s evs = .stopped s' → s'.err = s.err := by
  intro evs
  induction evs with
  | nil =>
    intro s s' h
    unfold informerRun at h
    split at h
    · cases h; rfl
    · cases h
  | cons ev rest ih =>
    intro s s' h
    unfold informerRun at h
    split at h
    · split at h
      · cases h
      · rename_i s1 hs1
        rw [ih s1 s' h, UpdateFunc_err conv hs1]
    · exact ih s s' h
    · exact ih s s' h

/-- The watcher never returns a non-nil error: it returns nil, blocks, or the
process exits. -/
theorem waitForStatusByInformer_never_error {U : Type} (conv : U → Except GoError Pod)
    (listWatch : String → String → List (WatchEvent U)) (obj : Info) (e : GoError) :
    waitForStatusByInformer conv listWatch obj ≠ .returned (some e) := by
  unfold waitForStatusByInformer
  simp only
  split
  · simp
  · simp
  · rename_i s hs
    have := informerRun_err conv _ _ _ hs
    simp [deferredRecover, this]

/-- On a stream whose updates all decode and none of which reports `Running`,
the channel is left as it was. -/
theorem informerRun_no_running {U : Type} (conv : U → Except GoError Pod) :
    ∀ (evs : List (WatchEvent U)) (s : Session),
      (∀ ev ∈ evs, wellFormed conv ev = true) →
      evs.any (reportsRunning conv) = false →
      informerRun conv s evs = if s.chClosed then .stopped s else .blocked s := by
  intro evs
  induction evs with
  | nil => intro s _ _; simp [informerRun]
  | cons ev rest ih =>
    intro s hwf hany
    have hrest : ∀ e ∈ rest, wellFormed conv e = true :=
      fun e he => hwf e (List.mem_cons_of_mem _ he)
    have hev : wellFormed conv ev = true := hwf ev (List.mem_cons_self _ _)
    rw [List.any_cons, Bool.or_eq_false_iff] at hany
    have := ih s hrest hany.2
    cases ev with
    | add o => simpa [informerRun] using this
    | delete o => simpa [informerRun] using this
    | update o n =>
      cases n with
      | other ty => simp [wellFormed] at hev
      | unstructured u =>
        cases hc : conv u with
        | error e => simp [wellFormed, hc] at hev
        | ok pod =>
          have hp : ¬ pod.phase = PodRunning := by
            have := hany.1
            simpa [reportsRunning, hc] using this
          simpa [informerRun, UpdateFunc, hc, hp] using this

/-- On a stream whose updates all decode, with the channel already closed, an
update that reports `Running` makes the handler close the channel again. -/
theorem informerRun_closed_running {U : Type} (conv : U → Except GoError Pod) :
    ∀ (evs : List (WatchEvent U)) (s : Session), s.chClosed = true →
      (∀ ev ∈ evs, wellFormed conv ev = true) →
      evs.any (reportsRunning conv) = true →
      informerRun conv s evs = .crashed .closeOfClosedChannel := by
  intro evs
  induction evs with
  | nil => intro s _ _ h; simp at h
  | cons ev rest ih =>
    intro s hs hwf hany
    have hrest : ∀ e ∈ rest, wellFormed conv e = true :=
      fun e he => hwf e (List.mem_cons_of_mem _ he)
    have hev : wellFormed conv ev = true := hwf ev (List.mem_cons_self _ _)
    rw [List.any_cons, Bool.or_eq_true] at hany
    cases ev with
    | add o =>
      have h2 : rest.any (reportsRunning conv) = true := by
        simpa [reportsRunning] using hany
      simpa [informerRun] using ih s hs hrest h2
    | delete o =>
      have h2 : rest.any (reportsRunning conv) = true := by
        simpa [reportsRunning] using hany
      simpa [informerRun] using ih s hs hrest h2
    | update o n =>
      cases n with
      | other ty => simp [wellFormed] at hev
      | unstructured u =>
        cases hc : conv u with
        | error e => simp [wellFormed, hc] at hev
        | ok pod =>
          by_cases hp : pod.phase = PodRunning
          · simp [informerRun, UpdateFunc, hc, hp, closeChan, hs]
          · have h2 : rest.any (reportsRunning conv) = true := by
              simpa [reportsRunning, hc, hp] using hany
            simpa [informerRun, UpdateFunc, hc, hp] using ih s hs hrest h2

/-- On a stream whose updates all decode, with the channel open: when exactly
one update reports `Running` the informer stops, and when some update does
the informer does not wait forever. -/
theorem informerRun_open_running {U : Type} (conv : U → Except GoError Pod) :
    ∀ (evs : List (WatchEvent U)) (s : Session), s.chClosed = false →
      (∀ ev ∈ evs, wellFormed conv ev = true) →
      (evs.countP (reportsRunning conv) = 1 → ∃ s', informerRun conv s evs = .stopped s') ∧
      (evs.any (reportsRunning conv) = true → ∀ s', informerRun conv s evs ≠ .blocked s') := by
  intro evs
  induction evs with
  | nil => intro s _ _; simp
  | cons ev rest ih =>
    intro s hs hwf
    have hrest : ∀ e ∈ rest, wellFormed conv e = true :=
      fun e he => hwf e (List.mem_cons_of_mem _ he)
    have hev : wellFormed conv ev = true := hwf ev (List.mem_cons_self _ _)
    have hih := ih s hs hrest
    cases ev with
    | add o =>
      have hn : ¬ reportsRunning conv (WatchEvent.add o) = true := by simp [reportsRunning]
      rw [List.countP_cons_of_neg _ _ hn]
      simpa [informerRun, reportsRunning] using hih
    | delete o =>
      have hn : ¬ reportsRunning conv (WatchEvent.delete o) = true := by
        simp [reportsRunning]
      rw [List.countP_cons_of_neg _ _ hn]
      simpa [informerRun, reportsRunning] using hih
    | update o n =>
      cases n with
      | other ty => simp [wellFormed] at hev
      | unstructured u =>
        cases hc : conv u with
        | error e => simp [wellFormed, hc] at hev
        | ok pod =>
          by_cases hp : pod.phase = PodRunning
          · have hy : reportsRunning conv (WatchEvent.update o (Obj.unstructured u)) = true := by
              simp [reportsRunning, hc, hp]
            have hstep : UpdateFunc conv s o (Obj.unstructured u) =
                .ok { s with chClosed := true,
                             log := s.log ++ [LogLine.success pod.name pod.ns] } := by
              simp [UpdateFunc, hc, hp, closeChan, hs]
            constructor
            · intro hcount
              rw [List.countP_cons_of_pos _ _ hy] at hcount
              have hzero : rest.countP (reportsRunning conv) = 0 := by omega
              have hnone : rest.any (reportsRunning conv) = false := by
                rw [List.any_eq_false]
                intro x hx
                exact (List.countP_eq_zero.mp hzero) x hx
              have := informerRun_no_running conv rest
                { s with chClosed := true,
                         log := s.log ++ [LogLine.success pod.name pod.ns] } hrest hnone
              refine ⟨{ s with chClosed := true,
                               log := s.log ++ [LogLine.success pod.name pod.ns] }, ?_⟩
              simp only [informerRun, hstep]
              rw [this]
              rfl
            · intro _ s'
              simp only [informerRun, hstep]
              by_cases hr : rest.any (reportsRunning conv) = true
              · rw [informerRun_closed_running conv rest _ rfl hrest hr]
                simp
              · have hr' : rest.any (reportsRunning conv) = false := by simpa using hr
                rw [informerRun_no_running conv rest _ hrest hr']
                simp
          · have hn : ¬ reportsRunning conv (WatchEvent.update o (Obj.unstructured u)) = true := by
              simp [reportsRunning, hc, hp]
            rw [List.countP_cons_of_neg _ _ hn]
            simpa [informerRun, UpdateFunc, hc, hp, reportsRunning] using hih

/-! ## Lemmas on the runner -/

theorem runner_index_zero {V U : Type} (c : Collab V U) (t : Task V) (h : t.index = 0) :
    runner c t = ([], .returned none) := by
  simp [runner, h]

/-- Calls of the k8s block are k8s calls, none of them a bash call. -/
theorem k8sBlock_calls {V U : Type} (c : Collab V U) (v : V) (action : String) :
    (k8sBlock c v action).1.any Call.isBash = false := by
  unfold k8sBlock
  split
  · simp [Call.isBash]
  · split
    · split
      · simp [Call.isBash]
      · split <;> simp [Call.isBash]
    · split <;> simp [Call.isBash]

/-- Calls of the bash block are bash calls, none of them a k8s call. -/
theorem bashBlock_calls {V U : Type} (c : Collab V U) (v : V) :
    (bashBlock c v).1.any Call.isK8s = false := by
  unfold bashBlock
  simp only
  split
  · simp [Call.isK8s]
  · split <;> simp [Call.isK8s]

/-- Shape of a run for type `k8s`: the two field reads, then the k8s block. -/
theorem runner_k8s {V U : Type} (c : Collab V U) (t : Task V) (hidx : t.index ≠ 0)
    (hk : c.getField t.value "type" "k8s" = "k8s") :
    runner c t =
      ([Call.getField "action" "apply", Call.getField "type" "k8s"] ++
          (k8sBlock c t.value (c.getField t.value "action" "apply")).1,
        match (k8sBlock c t.value (c.getField t.value "action" "apply")).2 with
        | .ret o => o
        | .next => .returned none) := by
  have hkb : ¬ ("k8s" : String) = "bash" := by decide
  unfold runner
  rw [if_pos hidx]
  simp only [hk, if_true, hkb, if_false]
  cases (k8sBlock c t.value (c.getField t.value "action" "apply")).2 <;> simp

/-- Shape of a run for type `bash`: the two field reads, then the bash block. -/
theorem runner_bash {V U : Type} (c : Collab V U) (t : Task V) (hidx : t.index ≠ 0)
    (hb : c.getField t.value "type" "k8s" = "bash") :
    runner c t =
      ([Call.getField "action" "apply", Call.getField "type" "k8s"] ++ (bashBlock c t.value).1,
        match (bashBlock c t.value).2 with
        | .ret o => o
        | .next => .returned none) := by
  have hbk : ¬ ("bash" : String) = "k8s" := by decide
  unfold runner
  rw [if_pos hidx]
  simp only [hb, if_true, hbk, if_false]
  cases (bashBlock c t.value).2 <;> simp

/-- Shape of a run for any other type: the two field reads only. -/
theorem runner_other {V U : Type} (c : Collab V U) (t : Task V) (hidx : t.index ≠ 0)
    (hk : c.getField t.value "type" "k8s" ≠ "k8s")
    (hb : c.getField t.value "type" "k8s" ≠ "bash") :
    runner c t =
      ([Call.getField "action" "apply", Call.getField "type" "k8s"], .returned none) := by
  unfold runner
  rw [if_pos hidx]
  simp [hk, hb]

/-- The two branches of the runner exclude each other: k8s calls occur only
for type `k8s` and then no bash call occurs, bash calls occur only for type
`bash` and then no k8s call occurs. -/
theorem runner_branches {V U : Type} (c : Collab V U) (t : Task V) :
    ((runner c t).1.any Call.isK8s = true →
        c.getField t.value "type" "k8s" = "k8s" ∧ (runner c t).1.any Call.isBash = false) ∧
    ((runner c t).1.any Call.isBash = true →
        c.getField t.value "type" "k8s" = "bash" ∧ (runner c t).1.any Call.isK8s = false) := by
  by_cases hidx : t.index = 0
  · simp [runner_index_zero c t hidx]
  · by_cases hk : c.getField t.value "type" "k8s" = "k8s"
    · have hcalls := k8sBlock_calls c t.value (c.getField t.value "action" "apply")
      have hnb : (runner c t).1.any Call.isBash = false := by
        rw [runner_k8s c t hidx hk, List.any_append, hcalls]
        decide
      exact ⟨fun _ => ⟨hk, hnb⟩, fun h => by rw [hnb] at h; cases h⟩
    · by_cases hb : c.getField t.value "type" "k8s" = "bash"
      · have hcalls := bashBlock_calls c t.value
        have hnk : (runner c t).1.any Call.isK8s = false := by
          rw [runner_bash c t hidx hb, List.any_append, hcalls]
          decide
        exact ⟨fun h => (by rw [hnk] at h; cases h), fun _ => ⟨hb, hnk⟩⟩
      · rw [runner_other c t hidx hk hb]
        constructor
        · intro h
          simp [Call.isK8s] at h
        · intro h
          simp [Call.isBash] at h

/-! ## The readiness watcher: claims C1, C2, C3, C9, C10 -/

/-- Claim C1, evaluated on the code. A k8s/apply task whose apply returns one
handle and whose watch stream delivers one update event that fails to decode:
the wait ends, but `waitForStatusByInformer` returns nil and so does the
runner; the claim asks for a non-nil decode error. The decode error is bound
to a variable local to the handler, the outer `err` stays nil. -/
theorem C1_decode_failure_returns_nil :
    failsToDecode convEx malformedUpdate = true ∧
    waitForStatusByInformer convEx (fun _ _ => [malformedUpdate]) podA = .returned none ∧
    (runner (collabEx [podA] [malformedUpdate] none none none) applyTask).2
      = .returned none := by
  decide

/-- Claim C2, evaluated on the code. On the stream "update to phase Pending,
then an update that fails to decode" the watcher returns nil although no
update event with phase `Running` occurs in the stream; the claim allows nil
only when the wait was ended by an update in phase `Running`. -/
theorem C2_nil_without_running_update :
    [updateOf "a" "Pending", malformedUpdate].any (reportsRunning convEx) = false ∧
    waitForStatusByInformer convEx
        (fun _ _ => [updateOf "a" "Pending", malformedUpdate]) podA = .returned none := by
  decide

/-- Claim C3, evaluated on the code. Two update events report `Running`; on
the second one the handler runs `close(ch)` on the channel it closed on the
first, a run-time panic raised while a watch event is processed. The panic is
on the informer's listener goroutine, out of reach of the deferred `recover`
of lines 59-63: it is not turned into a returned error, the process exits,
for the watcher and for the runner that called it. The claim asks for the
fault to be caught at the watcher and returned as a non-nil error. -/
theorem C3_fault_escapes_the_watcher :
    waitForStatusByInformer convEx
        (fun _ _ => [updateOf "a" "Running", updateOf "a" "Running"]) podA
      = .crashed .closeOfClosedChannel ∧
    (runner (collabEx [podA] [updateOf "a" "Running", updateOf "a" "Running"] none none none)
        applyTask).2
      = .crashed .closeOfClosedChannel := by
  decide

/-- Claim C9 as stated fails: the handle names pod `a` of namespace `default`,
the stream holds one update event reporting `Running` for pod `b` of the same
namespace and none for pod `a`, and the watcher returns nil. -/
theorem C9_other_pod_releases_caller :
    [updateOf "b" "Running"].any (reportsRunningFor convEx podA) = false ∧
    waitForStatusByInformer convEx (fun _ _ => [updateOf "b" "Running"]) podA
      = .returned none := by
  decide

/-- Claim C9, amended. For every handle and every stream of its resource kind
and namespace in which every update event decodes: the watcher returns nil
only after some update event of the stream reports phase `Running`, for
whichever resource; when exactly one update event reports `Running`, for
whichever resource, the watcher returns nil; it keeps blocking exactly when no
update event reports `Running`; and the outcome is the same for every handle
of that kind and namespace, whatever its name. -/
theorem C9_released_by_any_running_update {U : Type} (conv : U → Except GoError Pod)
    (listWatch : String → String → List (WatchEvent U)) (obj : Info)
    (hwf : ∀ ev ∈ listWatch obj.resource obj.ns, wellFormed conv ev = true) :
    (waitForStatusByInformer conv listWatch obj = .returned none →
        (listWatch obj.resource obj.ns).any (reportsRunning conv) = true) ∧
    ((listWatch obj.resource obj.ns).countP (reportsRunning conv) = 1 →
        waitForStatusByInformer conv listWatch obj = .returned none) ∧
    (waitForStatusByInformer conv listWatch obj = .blocked ↔
        (listWatch obj.resource obj.ns).any (reportsRunning conv) = false) ∧
    (∀ other : Info, other.resource = obj.resource → other.ns = obj.ns →
        waitForStatusByInformer conv listWatch other =
          waitForStatusByInformer conv listWatch obj) := by
  have hopen := informerRun_open_running conv (listWatch obj.resource obj.ns)
    { err := none, chClosed := false, log := [] } rfl hwf
  have hno : (listWatch obj.resource obj.ns).any (reportsRunning conv) = false →
      waitForStatusByInformer conv listWatch obj = .blocked := by
    intro h
    have := informerRun_no_running conv (listWatch obj.resource obj.ns)
      { err := none, chClosed := false, log := [] } hwf h
    simp only [waitForStatusByInformer, this]
    rfl
  refine ⟨?_, ?_, ⟨?_, hno⟩, ?_⟩
  · intro h
    by_contra hc
    have hb := hno (by simpa using hc)
    rw [h] at hb
    cases hb
  · intro h
    obtain ⟨s', hs'⟩ := hopen.1 h
    have herr := informerRun_err conv _ _ _ hs'
    simp only [waitForStatusByInformer, hs', deferredRecover, herr]
  · intro h
    by_contra hc
    have hany : (listWatch obj.resource obj.ns).any (reportsRunning conv) = true := by
      simpa using hc
    have hnb := hopen.2 hany
    unfold waitForStatusByInformer at h
    simp only at h
    split at h
    · rename_i s' hs'
      exact hnb s' hs'
    · cases h
    · cases h
  · intro other hres hns
    simp only [waitForStatusByInformer, hres, hns]

/-- Witness of `C9_released_by_any_running_update`: handle of pod `a`, stream
with one update reporting `Running` for pod `b`. -/
theorem C9_released_by_any_running_update_witness :
    (∀ ev ∈ [updateOf "b" "Running"], wellFormed convEx ev = true) ∧
    [updateOf "b" "Running"].countP (reportsRunning convEx) = 1 ∧
    waitForStatusByInformer convEx (fun _ _ => [updateOf "b" "Running"]) podA
      = .returned none :=
  ⟨by decide, by decide,
    (C9_released_by_any_running_update convEx (fun _ _ => [updateOf "b" "Running"]) podA
      (by decide)).2.1 (by decide)⟩

/-- Claim C10, evaluated on the code. Two update events in phase `Running`
are delivered to the handler of one session: the first closes `ch`, the second
runs `close(ch)` again, on the closed channel, which panics. The claim says
the handler never closes an already-closed channel; the handler has no guard
for it. -/
theorem C10_second_terminal_event_closes_again :
    deliver convEx Session.start [pairOf "Running"] =
      .ok { err := none, chClosed := true, log := [LogLine.success "a" "default"] } ∧
    deliver convEx Session.start [pairOf "Running", pairOf "Running"]
      = .error .closeOfClosedChannel :=
  ⟨rfl, rfl⟩

/-! ## The runner: claims C4, C5, C6, C7, C8 -/

/-- Claim C4. For every task of type `k8s` and action `apply` whose template
extracts to `podJson` and whose apply operation, performed by the run on
`podJson`, succeeds with handles `hs`: the readiness watcher is invoked on the
first element of `hs` and on nothing else when `hs` is non-empty, and not at
all when `hs` is empty; the runner ends as the watcher does in the first case
and returns nil in the second. -/
theorem C4_watcher_on_first_handle_only {V U : Type} (c : Collab V U) (t : Task V)
    (podJson : String) (hs : List Info)
    (htype : c.getField t.value "type" "k8s" = "k8s")
    (haction : c.getField t.value "action" "apply" = "apply")
    (htpl : c.jsonField t.value "template" = .ok podJson)
    (hcall : Call.apply podJson ∈ (runner c t).1)
    (happly : c.apply podJson = .ok hs) :
    watched (runner c t).1 = hs.head?.toList ∧
    (runner c t).2 =
      (match hs with
        | [] => .returned none
        | h :: _ => waitForStatusByInformer c.FromUnstructured c.listWatch h) := by
  have hidx : t.index ≠ 0 := by
    intro h0
    rw [runner_index_zero c t h0] at hcall
    cases hcall
  rw [runner_k8s c t hidx htype]
  cases hs with
  | nil => simp [k8sBlock, htpl, haction, happly, watched]
  | cons h rest => simp [k8sBlock, htpl, haction, happly, watched]

/-- Witness of `C4_watcher_on_first_handle_only`: apply returns the handles of
pods `a` and `b`, the stream reports pod `a` running; only pod `a` is
watched. -/
theorem C4_watcher_on_first_handle_only_witness :
    (collabEx [podA, podB] [updateOf "a" "Running"] none none none).getField
        applyTask.value "type" "k8s" = "k8s" ∧
    (collabEx [podA, podB] [updateOf "a" "Running"] none none none).getField
        applyTask.value "action" "apply" = "apply" ∧
    (collabEx [podA, podB] [updateOf "a" "Running"] none none none).jsonField
        applyTask.value "template" = .ok "manifest" ∧
    Call.apply "manifest" ∈
      (runner (collabEx [podA, podB] [updateOf "a" "Running"] none none none) applyTask).1 ∧
    (collabEx [podA, podB] [updateOf "a" "Running"] none none none).apply "manifest"
      = .ok [podA, podB] ∧
    watched
        (runner (collabEx [podA, podB] [updateOf "a" "Running"] none none none) applyTask).1
      = [podA] ∧
    (runner (collabEx [podA, podB] [updateOf "a" "Running"] none none none) applyTask).2
      = waitForStatusByInformer convEx (fun _ _ => [updateOf "a" "Running"]) podA :=
  ⟨rfl, rfl, rfl, by decide, rfl,
    C4_watcher_on_first_handle_only
      (collabEx [podA, podB] [updateOf "a" "Running"] none none none) applyTask
      "manifest" [podA, podB] rfl rfl rfl (by decide) rfl⟩

/-- Claim C5. For every task with non-zero index and type `k8s` whose
template extracts to `podJson` and whose action is not `apply`: the run makes
exactly one delete call, on `podJson`, no apply call and no readiness wait,
and it returns the result of delete (its error, or nil). -/
theorem C5_other_action_deletes_once {V U : Type} (c : Collab V U) (t : Task V)
    (podJson : String)
    (hidx : t.index ≠ 0)
    (htype : c.getField t.value "type" "k8s" = "k8s")
    (htpl : c.jsonField t.value "template" = .ok podJson)
    (haction : c.getField t.value "action" "apply" ≠ "apply") :
    (runner c t).1.filter Call.isDelete = [Call.delete podJson] ∧
    (runner c t).1.any Call.isApply = false ∧
    watched (runner c t).1 = [] ∧
    (runner c t).2 = .returned (c.delete podJson) := by
  rw [runner_k8s c t hidx htype]
  cases hd : c.delete podJson <;>
    simp [k8sBlock, htpl, haction, hd, watched, Call.isDelete, Call.isApply]

/-- Witness of `C5_other_action_deletes_once`: action `delete`, the delete
operation fails. -/
theorem C5_other_action_deletes_once_witness :
    deleteTask.index ≠ 0 ∧
    (collabEx [podA] [] (some "not found") none none).getField
        deleteTask.value "type" "k8s" = "k8s" ∧
    (collabEx [podA] [] (some "not found") none none).jsonField
        deleteTask.value "template" = .ok "manifest" ∧
    (collabEx [podA] [] (some "not found") none none).getField
        deleteTask.value "action" "apply" ≠ "apply" ∧
    (runner (collabEx [podA] [] (some "not found") none none) deleteTask).1.filter
        Call.isDelete = [Call.delete "manifest"] ∧
    (runner (collabEx [podA] [] (some "not found") none none) deleteTask).1.any
        Call.isApply = false ∧
    watched (runner (collabEx [podA] [] (some "not found") none none) deleteTask).1 = [] ∧
    (runner (collabEx [podA] [] (some "not found") none none) deleteTask).2
      = .returned (some "not found") :=
  ⟨by decide, rfl, rfl, by decide,
    C5_other_action_deletes_once (collabEx [podA] [] (some "not found") none none)
      deleteTask "manifest" (by decide) rfl rfl (by decide)⟩

/-- Claim C6. For every task with non-zero index and type `bash`, with
`script` the value of its `script` field: the command is started on that
script; the runner returns the error of `Start` when starting fails and the
result of `Wait` otherwise; hence it returns a non-nil error exactly when
starting fails or, once started, waiting fails; and when starting fails no
`Wait` is attempted. -/
theorem C6_bash_error_iff_start_or_wait_fails {V U : Type} (c : Collab V U) (t : Task V)
    (hidx : t.index ≠ 0)
    (htype : c.getField t.value "type" "k8s" = "bash") :
    Call.cmdStart (c.getField t.value "script" "") ∈ (runner c t).1 ∧
    (runner c t).2 =
      .returned (match c.cmdStart (c.getField t.value "script" "") with
        | some err => some err
        | none => c.cmdWait (c.getField t.value "script" "")) ∧
    ((∃ err, (runner c t).2 = .returned (some err)) ↔
      (c.cmdStart (c.getField t.value "script" "") ≠ none ∨
        (c.cmdStart (c.getField t.value "script" "") = none ∧
          c.cmdWait (c.getField t.value "script" "") ≠ none))) ∧
    (c.cmdStart (c.getField t.value "script" "") ≠ none →
      ∀ script, Call.cmdWait script ∉ (runner c t).1) := by
  rw [runner_bash c t hidx htype]
  cases hs : c.cmdStart (c.getField t.value "script" "") with
  | some e => simp [bashBlock, hs]
  | none =>
    cases hw : c.cmdWait (c.getField t.value "script" "") with
    | some e => simp [bashBlock, hs, hw]
    | none => simp [bashBlock, hs, hw]

/-- Witness of `C6_bash_error_iff_start_or_wait_fails`: the script starts and
exits with status 7. -/
theorem C6_bash_error_iff_start_or_wait_fails_witness :
    bashTask.index ≠ 0 ∧
    (collabEx [] [] none none (some "exit status 7")).getField
        bashTask.value "type" "k8s" = "bash" ∧
    (runner (collabEx [] [] none none (some "exit status 7")) bashTask).2
      = .returned (some "exit status 7") :=
  ⟨by decide, rfl,
    (C6_bash_error_iff_start_or_wait_fails (collabEx [] [] none none (some "exit status 7"))
      bashTask (by decide) rfl).2.1⟩

/-- Claim C7. For every task with index 0, whatever its configuration and
whatever the collaborators would do, the run makes no call at all (no field
read, no template extraction, no apply, no delete, no readiness wait, no
process) and returns nil. -/
theorem C7_index_zero_is_skipped {V U : Type} (c : Collab V U) (t : Task V)
    (hidx : t.index = 0) :
    runner c t = ([], .returned none) :=
  runner_index_zero c t hidx

/-- Witness of `C7_index_zero_is_skipped`: a k8s/apply task at index 0, with
collaborators that would all fail. -/
theorem C7_index_zero_is_skipped_witness :
    rootTask.index = 0 ∧
    runner (collabEx [podA] [malformedUpdate] (some "e") (some "e") (some "e")) rootTask
      = ([], .returned none) :=
  ⟨rfl, C7_index_zero_is_skipped _ rootTask rfl⟩

/-- Claim C8 as stated fails: there is no task configuration, for any
collaborators, whose run makes both a call of the k8s branch and a call of the
bash branch. -/
theorem C8_no_run_takes_both_branches :
    ¬ ∃ (V U : Type) (c : Collab V U) (t : Task V),
      (runner c t).1.any Call.isK8s = true ∧ (runner c t).1.any Call.isBash = true := by
  rintro ⟨V, U, c, t, hk, hb⟩
  have h := ((runner_branches c t).1 hk).2
  rw [hb] at h
  cases h

/-- Claim C8, amended. The two branches test the same `type` string, so a run
takes at most one of them: calls of the k8s branch occur only when the type is
`k8s`, and then the run makes no call of the bash branch; calls of the bash
branch occur only when the type is `bash`, and then the run makes no call of
the k8s branch. -/
theorem C8_branches_are_exclusive {V U : Type} (c : Collab V U) (t : Task V) :
    ((runner c t).1.any Call.isK8s = true →
        c.getField t.value "type" "k8s" = "k8s" ∧ (runner c t).1.any Call.isBash = false) ∧
    ((runner c t).1.any Call.isBash = true →
        c.getField t.value "type" "k8s" = "bash" ∧ (runner c t).1.any Call.isK8s = false) :=
  runner_branches c t

end PodsHandler
